import Mathlib

/-!
Shallow embedding of the telegram-workout-assistant repository
(src/bot.py and src/ai_bot.py).

Modelling conventions:
* Machine-level Python values that flow between the handlers and the
  language model are modelled by the small `PyVal` type (JSON-like data).
* The language model (OpenAI chat completion) is non-deterministic external
  input; each pipeline takes the model capability as a function argument
  (for the note path, the already `json.loads`-decoded response, where
  `none` models a `json.JSONDecodeError`; for the query path, the raw SQL
  text the model returned).
* The SQLAlchemy session / SQLite backend is external library code; it is
  modelled for the statement shapes exercised by the theorems below: a
  scoped or unscoped `SELECT * FROM gym_notes ...`, a SELECT over a
  missing table (raising `no such table`), and the modifying statements
  `DELETE FROM gym_notes`, `UPDATE gym_notes SET note = <v>` and
  `DROP TABLE gym_notes` — all three execute destructively before
  `fetchall()` raises, as SQLAlchemy/SQLite do.  Text outside these
  shapes raises a generic operational error; no theorem depends on what
  such leftover text would do beyond its exception being embedded in the
  reply.  The session additionally records every SQL text handed to the
  engine (the `executed` log), which is the observable "the Store was
  invoked".
-/

namespace WorkoutBot

/-! ## Python value model -/

/-- JSON-like Python values appearing in decoded model responses. -/
inductive PyVal where
  | vstr (s : String)
  | vint (n : Int)
  | vlist (xs : List PyVal)

/-- A decoded JSON object (Python dict) as a key/value association list. -/
abbrev PyDict := List (String × PyVal)

/-- Model of Python `d.get(key, default)`. -/
def dictGet (d : PyDict) (k : String) (dflt : PyVal) : PyVal :=
  match d.find? (fun kv => kv.1 == k) with
  | some kv => kv.2
  | none => dflt

/-- Model of Python truthiness for the values above. -/
def truthy : PyVal → Bool
  | .vstr s => !(s.data.isEmpty)
  | .vint n => n != 0
  | .vlist xs => !xs.isEmpty

/-- Model of `json.dumps` on a value. -/
def dumpVal : PyVal → String
  | .vstr s => "\x22" ++ s ++ "\x22"
  | .vint n => toString n
  | .vlist xs => "[" ++ String.intercalate ", " (xs.attach.map (fun x => dumpVal x.1)) ++ "]"
decreasing_by
  simp_wf
  have h := List.sizeOf_lt_of_mem x.2
  omega

/-- Model of `json.dumps` on a dict. -/
def dumps (d : PyDict) : String :=
  "\x7b" ++ String.intercalate ", " (d.map (fun kv => "\x22" ++ kv.1 ++ "\x22: " ++ dumpVal kv.2)) ++ "\x7d"

/-- Model of Python `repr` on the values above. -/
def pyRepr : PyVal → String
  | .vstr s => "\x27" ++ s ++ "\x27"
  | .vint n => toString n
  | .vlist xs => "[" ++ String.intercalate ", " (xs.attach.map (fun x => pyRepr x.1)) ++ "]"
decreasing_by
  simp_wf
  have h := List.sizeOf_lt_of_mem x.2
  omega

/-- Model of Python `str` on the values above. -/
def pyStr : PyVal → String
  | .vstr s => s
  | .vint n => toString n
  | .vlist xs => pyRepr (.vlist xs)

/-- Model of `", ".join(xs)` for a decoded list of strings. -/
def joinComma : PyVal → String
  | .vlist xs => String.intercalate ", " (xs.map pyStr)
  | v => pyStr v

/-- Model of Python string slicing `s[n:]` (an out-of-range start yields `""`). -/
def pySlice (s : String) (n : Nat) : String :=
  String.mk (s.data.drop n)

/-! ## Data model (table `gym_notes`, class GymNote in both scripts) -/

/-- One row of the `gym_notes` table. -/
structure GymNote where
  id : Nat
  user_id : Int
  note : String
  timestamp : Nat
deriving DecidableEq

/-- The SQLAlchemy session together with the backing SQLite database,
plus the log of every SQL text handed to the engine. -/
structure Session where
  notes : List GymNote
  nextId : Nat
  executed : List String
deriving DecidableEq

/-! ## Modelled SQLite execution of the model-generated SQL text -/

/-- Split a character list on spaces. -/
def splitChars : List Char → List Char → List (List Char)
  | [], acc => [acc.reverse]
  | c :: cs, acc =>
    if c == ' ' then acc.reverse :: splitChars cs [] else splitChars cs (c :: acc)

/-- Strip quoting and statement punctuation from one token. -/
def normTok (t : String) : String :=
  String.mk (t.data.filter (fun c => c != '\x22' && c != ';' && c != '\x27'))

/-- Tokenize an SQL text on whitespace. -/
def sqlTokens (s : String) : List String :=
  ((splitChars s.data []).map (fun cs => normTok (String.mk cs))).filter (fun t => t != "")

/-- Accumulate decimal digits; fails on a non-digit. -/
def digitsValAux : List Char → Nat → Option Nat
  | [], acc => some acc
  | c :: cs, acc =>
    if '0' ≤ c ∧ c ≤ '9' then digitsValAux cs (acc * 10 + (c.toNat - 48)) else none

/-- Parse an integer literal token. -/
def parseIntTok (s : String) : Option Int :=
  match s.data with
  | [] => none
  | '-' :: cs => if cs.isEmpty then none else (digitsValAux cs 0).map (fun n => -(n : Int))
  | cs => (digitsValAux cs 0).map (fun n => (n : Int))

/-- The SQL statement shapes recognised by the modelled backend. -/
inductive Stmt where
  | selectAllWhereUser (uid : Int)
  | selectAll
  | selectMissingTable (tbl : String)
  | deleteAll
  | updateAllNotes (v : String)
  | dropTable
deriving DecidableEq

/-- Recognise the SQL text as one of the modelled statement shapes
(a SELECT naming any table other than gym_notes is the missing-table
case). -/
def parseSql (sql : String) : Option Stmt :=
  match sqlTokens sql with
  | ["SELECT", "*", "FROM", "gym_notes", "WHERE", "user_id", "=", n] =>
    (parseIntTok n).map Stmt.selectAllWhereUser
  | ["SELECT", "*", "FROM", "gym_notes"] => some Stmt.selectAll
  | ["DELETE", "FROM", "gym_notes"] => some Stmt.deleteAll
  | ["UPDATE", "gym_notes", "SET", "note", "=", v] => some (Stmt.updateAllNotes v)
  | ["DROP", "TABLE", "gym_notes"] => some Stmt.dropTable
  | ["SELECT", _col, "FROM", tbl] =>
    if tbl == "gym_notes" then none else some (Stmt.selectMissingTable tbl)
  | _ => none

/-- The operational-error text for a text outside the modelled shapes,
following SQLite's report for genuinely malformed input (it names the
first offending token).  This fallback is a stand-in: statements SQLite
would accept but the model does not recognise also land here, and no
theorem below rests on the fallback branch beyond the fact that the
handler embeds whatever exception text arises. -/
def sqlSyntaxError (sql : String) : String :=
  "(sqlite3.OperationalError) near \x22" ++ (sqlTokens sql).headD sql ++ "\x22: syntax error"

/-- Run one recognised statement.  A gym_notes SELECT returns rows and
leaves the data unchanged; a SELECT over another table raises
`no such table` and changes nothing.  The modifying statements execute
first — DELETE empties the rows, UPDATE rewrites every row's note,
DROP destroys the table (its rows, in this flat model) — and only then
does `fetchall()` raise (`This result object does not return rows.`),
exactly as SQLAlchemy behaves for a statement without a result set: the
modification has already happened when the exception is thrown. -/
def execStmt : Stmt → Session → Session × Except String (List GymNote)
  | .selectAllWhereUser uid, s => (s, .ok (s.notes.filter (fun r => r.user_id == uid)))
  | .selectAll, s => (s, .ok s.notes)
  | .selectMissingTable tbl, s =>
    (s, .error ("(sqlite3.OperationalError) no such table: " ++ tbl))
  | .deleteAll, s =>
    ({ s with notes := [] }, .error "This result object does not return rows.")
  | .updateAllNotes v, s =>
    ({ s with notes := s.notes.map (fun r => { r with note := v }) },
     .error "This result object does not return rows.")
  | .dropTable, s =>
    ({ s with notes := [] }, .error "This result object does not return rows.")

/-- Model of `session.execute(text(sql)).fetchall()`: the text is always
handed to the engine (logged in `executed`); a text outside the modelled
shapes raises the fallback operational error. -/
def sessionExecute (sql : String) (s : Session) : Session × Except String (List GymNote) :=
  let s1 : Session := { s with executed := s.executed ++ [sql] }
  match parseSql sql with
  | none => (s1, .error (sqlSyntaxError sql))
  | some stmt => execStmt stmt s1

/-- Model of `str(row)` for a fetched row. -/
def renderRow (r : GymNote) : String :=
  "(" ++ toString r.id ++ ", " ++ toString r.user_id ++ ", \x27" ++ r.note ++
    "\x27, " ++ toString r.timestamp ++ ")"

/-- Model of `"\n".join(str(row) for row in result_rows)`. -/
def renderRows (rows : List GymNote) : String :=
  String.intercalate "\n" (rows.map renderRow)

/-! ## src/ai_bot.py -/

/-- The outcome of parsing the model response in `parse_gym_note`
(src/ai_bot.py lines 45-80): `llmJson note` is the model's reply to the
extraction prompt for `note`, already decoded by `json.loads`
(`none` models a `json.JSONDecodeError`).  On decode failure a
`ValueError` is raised; otherwise the dict and its `missing_info` entry
(default `[]`) are returned. -/
def parse_gym_note (llmJson : String → Option PyDict) (note : String) :
    Except String (PyDict × PyVal) :=
  match llmJson note with
  | none => .error "Failed to parse JSON from the model\x27s response."
  | some parsed_note => .ok (parsed_note, dictGet parsed_note "missing_info" (.vlist []))

/-- What a command handler did: replied to the user, or let an exception
escape the handler uncaught. -/
inductive NoteOutcome where
  | replied (reply : String) (store : Session)
  | raised (message : String) (store : Session)
deriving DecidableEq

/-- Model of the saved-details text `"\n".join(f"..." for key, value ...)`. -/
def savedDetails (d : PyDict) : String :=
  String.intercalate "\n" (d.map (fun kv => kv.1 ++ ": " ++ pyStr kv.2))

/-- src/ai_bot.py `note_handler` (lines 86-108): strip the `/note ` prefix,
parse via the model, either ask for clarification (store untouched) or
append one new GymNote row and commit. -/
def note_handler (llmJson : String → Option PyDict) (user_id : Int) (now : Nat)
    (msgText : String) (st : Session) : NoteOutcome :=
  let note := pySlice msgText 6
  match parse_gym_note llmJson note with
  | .error e => .raised e st
  | .ok (parsed_note, missing_info) =>
    if truthy missing_info then
      .replied ("Please provide more details about the following: " ++ joinComma missing_info) st
    else
      let gym_note : GymNote := ⟨st.nextId, user_id, dumps parsed_note, now⟩
      .replied ("Note saved with the following details:\n" ++ savedDetails parsed_note)
        { st with notes := st.notes ++ [gym_note], nextId := st.nextId + 1 }

/-- src/ai_bot.py `query_database` (lines 110-148): `llmSql prompt` is the
SQL text the model returned for the user's prompt; it is executed as-is,
and any exception is caught and rendered into the returned text. -/
def query_database (llmSql : String → String) (user_id : Int) (query_prompt : String)
    (st : Session) : Session × String :=
  let sql_query := llmSql query_prompt
  match sessionExecute sql_query st with
  | (st1, .error e) => (st1, "An error occurred while executing the query: " ++ e)
  | (st1, .ok rows) =>
    (st1, if rows.isEmpty then "Query returned no results." else renderRows rows)

/-- The observable outcome of `query_handler`: the reply text, the session
afterwards, and how many summarization model calls were made. -/
structure QueryOutcome where
  reply : String
  store : Session
  summarizerCalls : Nat
deriving DecidableEq

/-- src/ai_bot.py `query_handler` (lines 173-229): execute the synthesized
SQL; on an empty result the summary stays `""` and no summarization call
is made; on rows, one summarization call; on an exception, the summary is
the error text.  The reply is always sent. -/
def query_handler (llmSql : String → String) (llmSummarize : String → String)
    (user_id : Int) (prompt : String) (st : Session) : QueryOutcome :=
  let sql_query := llmSql prompt
  match sessionExecute sql_query st with
  | (st1, .error e) =>
    ⟨"Summary of your query results:\n" ++ ("An error occurred while executing the query: " ++ e),
      st1, 0⟩
  | (st1, .ok rows) =>
    if rows.isEmpty then
      ⟨"Summary of your query results:\n", st1, 0⟩
    else
      ⟨"Summary of your query results:\n" ++ llmSummarize (renderRows rows), st1, 1⟩

/-! ## src/bot.py -/

/-- src/bot.py `note_handler` (lines 26-35): strip the `/note ` prefix and
unconditionally append the raw note text as a new row. -/
def bot_note_handler (user_id : Int) (now : Nat) (msgText : String)
    (st : Session) : String × Session :=
  let note := pySlice msgText 6
  let gym_note : GymNote := ⟨st.nextId, user_id, note, now⟩
  ("Note saved!", { st with notes := st.notes ++ [gym_note], nextId := st.nextId + 1 })

/-! ## Command sequences -/

/-- One inbound command, together with the model capability it will use. -/
inductive Cmd where
  | note (llmJson : String → Option PyDict) (user_id : Int) (now : Nat) (msgText : String)
  | query (llmSql : String → String) (llmSummarize : String → String)
      (user_id : Int) (prompt : String)

/-- The session after handling one command. -/
def stepStore (c : Cmd) (st : Session) : Session :=
  match c with
  | .note llmJson uid now txt =>
    match note_handler llmJson uid now txt st with
    | .replied _ st' => st'
    | .raised _ st' => st'
  | .query llmSql llmSummarize uid prompt =>
    (query_handler llmSql llmSummarize uid prompt st).store

/-- The session after handling a sequence of commands in order. -/
def runCmds (cmds : List Cmd) (st : Session) : Session :=
  cmds.foldl (fun s c => stepStore c s) st

/-- The recognised statement shapes that never change the stored rows. -/
def readOnlyStmt : Stmt → Bool
  | .selectAllWhereUser _ => true
  | .selectAll => true
  | .selectMissingTable _ => true
  | .deleteAll => false
  | .updateAllNotes _ => false
  | .dropTable => false

/-- A command whose database effect is one of the recognised read-only
SELECT forms (note commands run no synthesized SQL at all). -/
def isReadOnlySelect : Cmd → Prop
  | .query llmSql _ _ prompt =>
    ∃ stmt, parseSql (llmSql prompt) = some stmt ∧ readOnlyStmt stmt = true
  | .note _ _ _ _ => True

/-! ## Definitions following the spec's words (for comparison with the code) -/

/-- Lowercase one ASCII character. -/
def lcChar (c : Char) : Char :=
  if 65 ≤ c.toNat ∧ c.toNat ≤ 90 then Char.ofNat (c.toNat + 32) else c

/-- Lowercase a string (ASCII). -/
def toLowerStr (s : String) : String :=
  String.mk (s.data.map lcChar)

/-- Whether the character list starts with the given needle. -/
def startsWithSeq : List Char → List Char → Bool
  | _, [] => true
  | [], _ :: _ => false
  | c :: cs, d :: ds => c == d && startsWithSeq cs ds

/-- Whether the needle occurs anywhere in the haystack. -/
def containsSeq : List Char → List Char → Bool
  | [], needle => needle.isEmpty
  | c :: rest, needle => startsWithSeq (c :: rest) needle || containsSeq rest needle

/-- Whether `needle` occurs as a substring of `hay`. -/
def occursStr (needle hay : String) : Bool :=
  containsSeq hay.data needle.data

/-- Modelled from the spec: the safety-policy keyword list of section 4.4
("insert/update/delete/drop/alter/create/truncate, case-insensitive"). -/
def modifyingKeywords : List String :=
  ["insert", "update", "delete", "drop", "alter", "create", "truncate"]

/-- Modelled from the spec: whether a query text contains a data-modifying
or schema-modifying keyword, case-insensitive (section 4.4, check 1). -/
def spec_containsModifyingKeyword (sql : String) : Bool :=
  modifyingKeywords.any (fun k => occursStr k (toLowerStr sql))

/-- Modelled from the spec: a draft violates the length invariant of
section 3 when the reps and weights sequences differ in length, or both
are non-empty and their length differs from the sets count.  Field names
follow the extraction prompt of src/ai_bot.py (Sets, Reps, Weight). -/
def spec_lengthInvariantViolated (d : PyDict) : Bool :=
  match dictGet d "Reps" (.vlist []), dictGet d "Weight" (.vlist []),
      dictGet d "Sets" (.vint 0) with
  | .vlist reps, .vlist weights, .vint sets =>
    reps.length != weights.length ||
      (!reps.isEmpty && !weights.isEmpty && ((reps.length : Int) != sets))
  | _, _, _ => true

/-! ## Concrete fixtures used in the theorems -/

/-- A session with no rows. -/
def emptySession : Session := ⟨[], 1, []⟩

/-- A session holding one row for user 1. -/
def sampleStore : Session := ⟨[⟨1, 1, "leg day", 0⟩], 2, []⟩

/-- A session holding one row for user 2 (user B). -/
def bStore : Session := ⟨[⟨1, 2, "user-b secret workout", 0⟩], 2, []⟩

/-- A session holding one row for user 1 and one for user 2. -/
def mixedStore : Session := ⟨[⟨1, 1, "bench", 0⟩, ⟨2, 2, "row", 0⟩], 3, []⟩

/-- A schema-violating draft: one rep entry against three sets and three
weight entries. -/
def badDraft : PyDict :=
  [("Exercise", .vstr "bench press"), ("Sets", .vint 3),
   ("Reps", .vlist [.vint 10]), ("Weight", .vlist [.vint 60, .vint 60, .vint 60])]

/-- A decoded model response asking for a missing duration. -/
def missingDurationDraft : PyDict :=
  [("Exercise", .vstr "treadmill"), ("missing_info", .vlist [.vstr "Duration"])]

end WorkoutBot

namespace WorkoutBot

/-! ## Helper lemmas -/

theorem execStmt_executed (stmt : Stmt) (s : Session) :
    ((execStmt stmt s).1).executed = s.executed := by
  cases stmt <;> rfl

theorem sessionExecute_executed (sql : String) (s : Session) :
    ((sessionExecute sql s).1).executed = s.executed ++ [sql] := by
  unfold sessionExecute
  cases parseSql sql with
  | none => rfl
  | some stmt => exact execStmt_executed stmt _

theorem execStmt_notes (stmt : Stmt) (s : Session) (h : readOnlyStmt stmt = true) :
    ((execStmt stmt s).1).notes = s.notes := by
  cases stmt <;> first | rfl | simp [readOnlyStmt] at h

theorem query_handler_store (llmSql llmSummarize : String → String) (uid : Int)
    (prompt : String) (st : Session) :
    (query_handler llmSql llmSummarize uid prompt st).store
      = (sessionExecute (llmSql prompt) st).1 := by
  unfold query_handler
  rcases h : sessionExecute (llmSql prompt) st with ⟨st1, res⟩
  cases res with
  | error e => simp [h]
  | ok rows =>
    simp only [h]
    split <;> rfl

end WorkoutBot

open WorkoutBot

/-- Claim C1: the claim says a synthesized query containing a modifying
keyword fails with UnsafeQueryError before any Store call and is never
executed.  Counterexample: the text "DELETE FROM gym_notes" contains the
keyword "delete", yet `query_database` hands it to the engine (it appears
in the executed log) and the stored rows are deleted; no rejection occurs. -/
theorem C1_counterexample :
    spec_containsModifyingKeyword "DELETE FROM gym_notes" = true ∧
    query_database (fun _ => "DELETE FROM gym_notes") 1 "delete all my notes" sampleStore
      = (⟨[], 2, ["DELETE FROM gym_notes"]⟩,
         "An error occurred while executing the query: This result object does not return rows.") :=
  ⟨rfl, rfl⟩

/-- Claim C1 (amended): `query_database` performs no keyword check at all —
every synthesized query text, modifying or not, is sent to the database
engine exactly once; no UnsafeQueryError path exists in the code. -/
theorem C1_query_always_sent_to_store (llmSql : String → String) (uid : Int)
    (prompt : String) (st : Session) :
    ((query_database llmSql uid prompt st).1).executed = st.executed ++ [llmSql prompt] := by
  unfold query_database
  rcases h : sessionExecute (llmSql prompt) st with ⟨st1, res⟩
  have hex := sessionExecute_executed (llmSql prompt) st
  rw [h] at hex
  cases res <;> simpa [h] using hex

/-- Claim C2: the claim says the query's filtering condition is checked to
be scoped to the caller's userId, a mismatch failing with UnsafeQueryError
without executing.  Counterexample: for caller user 1, a synthesized query
filtering on user_id = 2 is executed unchecked and returns user 2's row. -/
theorem C2_counterexample :
    (sessionExecute "SELECT * FROM gym_notes WHERE user_id = 2" bStore).2
      = Except.ok [⟨1, 2, "user-b secret workout", 0⟩] ∧
    (query_database (fun _ => "SELECT * FROM gym_notes WHERE user_id = 2") 1
        "show me all workouts" bStore).2
      = renderRow ⟨1, 2, "user-b secret workout", 0⟩ :=
  ⟨rfl, rfl⟩

/-- Claim C2 (amended): no userId cross-check exists; isolation holds only
to the extent that the synthesized filter itself names the caller — every
row returned by a user_id-filtered SELECT belongs to the user named in the
filter, whoever the caller was. -/
theorem C2_scoped_select_rows (uid : Int) (sql : String) (st st₁ : Session)
    (rows : List GymNote) (r : GymNote)
    (hp : parseSql sql = some (Stmt.selectAllWhereUser uid))
    (he : sessionExecute sql st = (st₁, Except.ok rows))
    (hr : r ∈ rows) : r.user_id = uid := by
  unfold sessionExecute at he
  rw [hp] at he
  simp only [execStmt, Prod.mk.injEq, Except.ok.injEq] at he
  obtain ⟨-, h2⟩ := he
  subst h2
  rcases List.mem_filter.mp hr with ⟨-, hfilt⟩
  exact eq_of_beq hfilt

/-- Claim C2 witness: the scoped-select theorem applied at a concrete
mixed-user store and the caller's own filter. -/
theorem C2_witness :
    parseSql "SELECT * FROM gym_notes WHERE user_id = 1"
      = some (Stmt.selectAllWhereUser 1) ∧
    sessionExecute "SELECT * FROM gym_notes WHERE user_id = 1" mixedStore
      = (⟨[⟨1, 1, "bench", 0⟩, ⟨2, 2, "row", 0⟩], 3,
          ["SELECT * FROM gym_notes WHERE user_id = 1"]⟩,
         Except.ok [⟨1, 1, "bench", 0⟩]) ∧
    (⟨1, 1, "bench", 0⟩ : GymNote).user_id = 1 :=
  ⟨rfl, rfl,
    C2_scoped_select_rows 1 "SELECT * FROM gym_notes WHERE user_id = 1" mixedStore
      ⟨[⟨1, 1, "bench", 0⟩, ⟨2, 2, "row", 0⟩], 3,
        ["SELECT * FROM gym_notes WHERE user_id = 1"]⟩
      [⟨1, 1, "bench", 0⟩] ⟨1, 1, "bench", 0⟩ rfl rfl (List.Mem.head _)⟩

namespace WorkoutBot

/-- A fixture command: a note whose model response decodes to a plain
exercise dict with no missing information. -/
def noteCmd : Cmd :=
  .note (fun _ => some [("Exercise", .vstr "bench press")]) 1 0 "/note bench"

/-- A fixture command: a query whose synthesized SQL is the DELETE statement. -/
def wipeCmd : Cmd :=
  .query (fun _ => "DELETE FROM gym_notes") (fun _ => "") 1 "delete everything"

/-- A fixture command: a query whose synthesized SQL is an unscoped SELECT. -/
def selCmd : Cmd :=
  .query (fun _ => "SELECT * FROM gym_notes") (fun _ => "") 1 "show everything"

/-- A fixture command: a query whose synthesized SQL is an UPDATE rewriting
every note in place. -/
def updCmd : Cmd :=
  .query (fun _ => "UPDATE gym_notes SET note = \x27hacked\x27") (fun _ => "") 1
    "change my notes"

theorem sessionExecute_notes (sql : String) (s : Session) (stmt : Stmt)
    (hp : parseSql sql = some stmt) (h : readOnlyStmt stmt = true) :
    ((sessionExecute sql s).1).notes = s.notes := by
  unfold sessionExecute
  rw [hp]
  exact execStmt_notes stmt _ h

theorem stepStore_notes_append (c : Cmd) (st : Session) (h : isReadOnlySelect c) :
    ∃ t, (stepStore c st).notes = st.notes ++ t := by
  cases c with
  | note llmJson uid now txt =>
    simp only [stepStore, note_handler, parse_gym_note]
    cases llmJson (pySlice txt 6) with
    | none => exact ⟨[], by simp⟩
    | some d =>
      by_cases ht : truthy (dictGet d "missing_info" (PyVal.vlist [])) = true
      · exact ⟨[], by simp [ht]⟩
      · exact ⟨[⟨st.nextId, uid, dumps d, now⟩], by simp [ht]⟩
  | query llmSql llmSummarize uid prompt =>
    simp only [isReadOnlySelect] at h
    obtain ⟨stmt, hp, hro⟩ := h
    refine ⟨[], ?_⟩
    rw [stepStore, query_handler_store, List.append_nil]
    exact sessionExecute_notes (llmSql prompt) st stmt hp hro

end WorkoutBot

/-- Claim C3: the claim says no operation ever modifies or deletes a
committed record.  Counterexample: a note command commits one record; a
following query command whose synthesized SQL is a DELETE statement
erases it, and one whose SQL is an UPDATE rewrites the committed record
in place. -/
theorem C3_counterexample :
    (runCmds [noteCmd] emptySession).notes
      = [⟨1, 1, dumps [("Exercise", .vstr "bench press")], 0⟩] ∧
    (runCmds [noteCmd, wipeCmd] emptySession).notes = [] ∧
    (runCmds [noteCmd, updCmd] emptySession).notes = [⟨1, 1, "hacked", 0⟩] :=
  ⟨rfl, rfl, rfl⟩

/-- Claim C3 (amended): the note path only appends, but a query command
executes arbitrary synthesized SQL, and modifying statements (DELETE,
UPDATE, DROP) delete or edit committed records.  Append-only holds only
for command sequences in which every query's synthesized SQL is one of
the recognised read-only SELECT forms: then the store only grows by
appending (no committed record is modified or removed). -/
theorem C3_append_only (cmds : List Cmd) (st : Session)
    (h : ∀ c ∈ cmds, isReadOnlySelect c) :
    ∃ t, (runCmds cmds st).notes = st.notes ++ t := by
  induction cmds generalizing st with
  | nil => exact ⟨[], by simp [runCmds]⟩
  | cons c cs ih =>
    obtain ⟨t1, h1⟩ := stepStore_notes_append c st (h c (List.mem_cons_self c cs))
    obtain ⟨t2, h2⟩ := ih (stepStore c st) (fun d hd => h d (List.mem_cons_of_mem c hd))
    refine ⟨t1 ++ t2, ?_⟩
    have hr : runCmds (c :: cs) st = runCmds cs (stepStore c st) := by
      simp [runCmds]
    rw [hr, h2, h1, List.append_assoc]

/-- Claim C3 witness: the append-only theorem applied to a concrete
note-then-select command sequence. -/
theorem C3_witness :
    ∃ t, (runCmds [noteCmd, selCmd] emptySession).notes = emptySession.notes ++ t :=
  C3_append_only [noteCmd, selCmd] emptySession (by
    intro c hc
    rcases List.mem_cons.mp hc with rfl | hc2
    · trivial
    · rcases List.mem_cons.mp hc2 with rfl | hc3
      · exact ⟨Stmt.selectAll, rfl, rfl⟩
      · exact absurd hc3 (List.not_mem_nil c))

/-- Claim C4: the claim says a draft violating the reps/weights/sets length
invariant makes the extraction fail with ParseError and persists zero
records.  Counterexample: `badDraft` (1 rep entry, 3 weights, 3 sets)
violates the invariant, yet the note handler replies success and persists
exactly one record. -/
theorem C4_counterexample :
    spec_lengthInvariantViolated badDraft = true ∧
    note_handler (fun _ => some badDraft) 1 0 "/note bench" emptySession
      = .replied ("Note saved with the following details:\n" ++ savedDetails badDraft)
          ⟨[⟨1, 1, dumps badDraft, 0⟩], 2, []⟩ ∧
    (stepStore (.note (fun _ => some badDraft) 1 0 "/note bench") emptySession).notes.length
      = 1 :=
  ⟨rfl, rfl, rfl⟩

/-- Claim C4 (amended): when the model response fails to decode as JSON the
handler raises a ValueError and persists nothing; but no schema or
reps/weights/sets validation is performed — a decodable draft violating the
length invariant is persisted as-is (one record, no error). -/
theorem C4_parse_failure_raises_no_invariant_check (uid : Int) (now : Nat)
    (txt : String) (st : Session) :
    note_handler (fun _ => none) uid now txt st
      = .raised "Failed to parse JSON from the model\x27s response." st ∧
    spec_lengthInvariantViolated badDraft = true ∧
    note_handler (fun _ => some badDraft) uid now txt st
      = .replied ("Note saved with the following details:\n" ++ savedDetails badDraft)
          { st with notes := st.notes ++ [⟨st.nextId, uid, dumps badDraft, now⟩],
                    nextId := st.nextId + 1 } :=
  ⟨rfl, rfl, rfl⟩

/-- Claim C5: the claim says every error is caught at the command boundary
and the reply is a fixed message never containing raw internal error text.
Counterexample: a JSON decode failure escapes `note_handler` uncaught
(no reply is produced), and two different failing queries produce two
different replies, each embedding the backend's raw exception text
(the ResourceClosedError text after a DELETE has executed, and the
"no such table: users" operational error for a SELECT over a foreign
table). -/
theorem C5_counterexample :
    note_handler (fun _ => none) 1 0 "/note bench" sampleStore
      = .raised "Failed to parse JSON from the model\x27s response." sampleStore ∧
    (query_handler (fun _ => "DELETE FROM gym_notes") (fun _ => "") 1 "p" sampleStore).reply
      ≠ (query_handler (fun _ => "SELECT password FROM users") (fun _ => "") 1 "p"
          sampleStore).reply ∧
    occursStr "no such table: users"
      (query_handler (fun _ => "SELECT password FROM users") (fun _ => "") 1 "p"
        sampleStore).reply = true ∧
    occursStr "This result object does not return rows."
      (query_handler (fun _ => "DELETE FROM gym_notes") (fun _ => "") 1 "p" sampleStore).reply
      = true :=
  ⟨rfl, by decide, by decide, by decide⟩

/-- Claim C5 (amended): `query_handler` does catch execution errors and
always replies with zero summarizer calls — but the reply embeds the
backend's raw exception text verbatim rather than a fixed message (and the
failing statement may already have modified the store before raising);
note-path errors are not caught at the handler at all. -/
theorem C5_query_error_reply_embeds_exception (llmSql llmSummarize : String → String)
    (uid : Int) (prompt : String) (st st₁ : Session) (e : String)
    (h : sessionExecute (llmSql prompt) st = (st₁, Except.error e)) :
    query_handler llmSql llmSummarize uid prompt st
      = ⟨"Summary of your query results:\n" ++
          ("An error occurred while executing the query: " ++ e), st₁, 0⟩ := by
  simp [query_handler, h]

/-- Claim C5 witness: the error-reply theorem applied to the DELETE
statement, whose execution empties the table and then raises the
ResourceClosedError text that the reply embeds. -/
theorem C5_witness :
    sessionExecute "DELETE FROM gym_notes" sampleStore
      = (⟨[], 2, ["DELETE FROM gym_notes"]⟩,
         Except.error "This result object does not return rows.") ∧
    query_handler (fun _ => "DELETE FROM gym_notes") (fun _ => "summary") 1 "wipe" sampleStore
      = ⟨"Summary of your query results:\n" ++
          ("An error occurred while executing the query: "
            ++ "This result object does not return rows."),
         ⟨[], 2, ["DELETE FROM gym_notes"]⟩, 0⟩ :=
  ⟨rfl, C5_query_error_reply_embeds_exception (fun _ => "DELETE FROM gym_notes")
    (fun _ => "summary") 1 "wipe" sampleStore ⟨[], 2, ["DELETE FROM gym_notes"]⟩
    "This result object does not return rows." rfl⟩

/-- Claim C6: the claim says an empty result makes the summarization stage
return the fixed "no matching records" message with zero model calls.
Counterexample: on an empty result the reply is the bare prefix
"Summary of your query results:\n" — it contains neither a "no matching
records" text nor the internal "Query returned no results." text (the
zero-model-calls half does hold). -/
theorem C6_counterexample :
    (query_handler (fun _ => "SELECT * FROM gym_notes WHERE user_id = 1")
        (fun _ => "model summary") 1 "what did I do" emptySession).reply
      = "Summary of your query results:\n" ∧
    occursStr "no matching records"
      (query_handler (fun _ => "SELECT * FROM gym_notes WHERE user_id = 1")
        (fun _ => "model summary") 1 "what did I do" emptySession).reply = false ∧
    (query_handler (fun _ => "SELECT * FROM gym_notes WHERE user_id = 1")
        (fun _ => "model summary") 1 "what did I do" emptySession).summarizerCalls = 0 :=
  ⟨rfl, by decide, rfl⟩

/-- Claim C6 (amended): for every query whose execution yields an empty row
sequence, the reply is the fixed deterministic prefix with an empty summary
and zero summarization model calls are made — the outcome is independent of
the summarization model. -/
theorem C6_empty_result_deterministic_no_model_call (f g llmSql : String → String)
    (uid : Int) (prompt : String) (st st₁ : Session)
    (h : sessionExecute (llmSql prompt) st = (st₁, Except.ok [])) :
    query_handler llmSql f uid prompt st
      = ⟨"Summary of your query results:\n", st₁, 0⟩ ∧
    query_handler llmSql f uid prompt st = query_handler llmSql g uid prompt st := by
  have h1 : ∀ k : String → String, query_handler llmSql k uid prompt st
      = ⟨"Summary of your query results:\n", st₁, 0⟩ := by
    intro k
    simp [query_handler, h]
  exact ⟨h1 f, (h1 f).trans (h1 g).symm⟩

/-- Claim C6 witness: the empty-result theorem applied to a scoped SELECT
over the empty store, with two different summarizer stubs. -/
theorem C6_witness :
    sessionExecute "SELECT * FROM gym_notes WHERE user_id = 1" emptySession
      = (⟨[], 1, ["SELECT * FROM gym_notes WHERE user_id = 1"]⟩, Except.ok []) ∧
    query_handler (fun _ => "SELECT * FROM gym_notes WHERE user_id = 1") (fun _ => "a")
        1 "q" emptySession
      = ⟨"Summary of your query results:\n",
          ⟨[], 1, ["SELECT * FROM gym_notes WHERE user_id = 1"]⟩, 0⟩ ∧
    query_handler (fun _ => "SELECT * FROM gym_notes WHERE user_id = 1") (fun _ => "a")
        1 "q" emptySession
      = query_handler (fun _ => "SELECT * FROM gym_notes WHERE user_id = 1") (fun _ => "b")
        1 "q" emptySession :=
  ⟨rfl,
    (C6_empty_result_deterministic_no_model_call (fun _ => "a") (fun _ => "b")
      (fun _ => "SELECT * FROM gym_notes WHERE user_id = 1") 1 "q" emptySession
      ⟨[], 1, ["SELECT * FROM gym_notes WHERE user_id = 1"]⟩ rfl).1,
    (C6_empty_result_deterministic_no_model_call (fun _ => "a") (fun _ => "b")
      (fun _ => "SELECT * FROM gym_notes WHERE user_id = 1") 1 "q" emptySession
      ⟨[], 1, ["SELECT * FROM gym_notes WHERE user_id = 1"]⟩ rfl).2⟩

namespace WorkoutBot

theorem sessionExecute_snd_congr (sql : String) (s s' : Session) (h : s.notes = s'.notes) :
    (sessionExecute sql s).2 = (sessionExecute sql s').2 := by
  unfold sessionExecute
  cases parseSql sql with
  | none => rfl
  | some stmt => cases stmt <;> simp [execStmt, h]

/-- The session reached by re-running the sample scoped SELECT. -/
def c7After : Session :=
  ⟨[⟨1, 1, "leg day", 0⟩], 2, ["SELECT * FROM gym_notes WHERE user_id = 1"]⟩

end WorkoutBot

/-- Claim C7: executing the same synthesized query text a second time
against a store whose records are unchanged yields the identical row set
(read idempotence) — confirmed: the fetched rows depend only on the query
text and the stored records, and a successful fetch leaves them unchanged. -/
theorem C7_read_idempotent (sql : String) (st st₁ : Session) (rows : List GymNote)
    (h : sessionExecute sql st = (st₁, Except.ok rows)) (hun : st₁.notes = st.notes) :
    ∃ st₂, sessionExecute sql st₁ = (st₂, Except.ok rows) := by
  refine ⟨(sessionExecute sql st₁).1, ?_⟩
  have h2 : (sessionExecute sql st₁).2 = Except.ok rows := by
    rw [sessionExecute_snd_congr sql st₁ st hun, h]
  calc sessionExecute sql st₁
      = ((sessionExecute sql st₁).1, (sessionExecute sql st₁).2) := rfl
    _ = ((sessionExecute sql st₁).1, Except.ok rows) := by rw [h2]

/-- Claim C7 witness: the idempotence theorem applied to the sample scoped
SELECT over the one-row store. -/
theorem C7_witness :
    ∃ st₂, sessionExecute "SELECT * FROM gym_notes WHERE user_id = 1" c7After
      = (st₂, Except.ok [⟨1, 1, "leg day", 0⟩]) :=
  C7_read_idempotent "SELECT * FROM gym_notes WHERE user_id = 1" sampleStore c7After
    [⟨1, 1, "leg day", 0⟩] rfl rfl

/-- Claim C8: when the decoded model response carries a non-empty
missing_info list, the note handler replies asking for clarification and
returns with the store unchanged — confirmed. -/
theorem C8_clarification_store_unchanged (d : PyDict) (uid : Int) (now : Nat)
    (txt : String) (st : Session)
    (h : truthy (dictGet d "missing_info" (PyVal.vlist [])) = true) :
    note_handler (fun _ => some d) uid now txt st
      = .replied ("Please provide more details about the following: "
          ++ joinComma (dictGet d "missing_info" (PyVal.vlist []))) st := by
  simp [note_handler, parse_gym_note, h]

/-- Claim C8 witness: the clarification theorem applied to a response whose
missing_info names the duration. -/
theorem C8_witness :
    truthy (dictGet missingDurationDraft "missing_info" (PyVal.vlist [])) = true ∧
    note_handler (fun _ => some missingDurationDraft) 1 0 "/note ran on treadmill" sampleStore
      = .replied ("Please provide more details about the following: "
          ++ joinComma (dictGet missingDurationDraft "missing_info" (PyVal.vlist [])))
          sampleStore :=
  ⟨rfl, C8_clarification_store_unchanged missingDurationDraft 1 0 "/note ran on treadmill"
    sampleStore rfl⟩

/-- Claim C9: on a successful query with an empty result set, the reply is
exactly the prefix "Summary of your query results:" (plus the newline)
followed by an empty summary, and the internal "Query returned no results."
text never reaches the user — confirmed. -/
theorem C9_empty_result_reply_prefix_only (llmSql llmSummarize : String → String)
    (uid : Int) (prompt : String) (st st₁ : Session)
    (h : sessionExecute (llmSql prompt) st = (st₁, Except.ok [])) :
    (query_handler llmSql llmSummarize uid prompt st).reply
      = "Summary of your query results:\n" ∧
    occursStr "Query returned no results."
      (query_handler llmSql llmSummarize uid prompt st).reply = false := by
  have hq : query_handler llmSql llmSummarize uid prompt st
      = ⟨"Summary of your query results:\n", st₁, 0⟩ := by
    simp [query_handler, h]
  rw [hq]
  refine ⟨rfl, ?_⟩
  show occursStr "Query returned no results." "Summary of your query results:\n" = false
  decide

/-- Claim C9 witness: the empty-result reply theorem applied to a scoped
SELECT over the empty store. -/
theorem C9_witness :
    sessionExecute "SELECT * FROM gym_notes WHERE user_id = 1" emptySession
      = (⟨[], 1, ["SELECT * FROM gym_notes WHERE user_id = 1"]⟩, Except.ok []) ∧
    (query_handler (fun _ => "SELECT * FROM gym_notes WHERE user_id = 1") (fun _ => "s")
        1 "q" emptySession).reply = "Summary of your query results:\n" :=
  ⟨rfl,
    (C9_empty_result_reply_prefix_only (fun _ => "SELECT * FROM gym_notes WHERE user_id = 1")
      (fun _ => "s") 1 "q" emptySession
      ⟨[], 1, ["SELECT * FROM gym_notes WHERE user_id = 1"]⟩ rfl).1⟩

/-- Claim C10: a message shorter than the command prefix plus one space
(such as the bare "/note") makes the prefix-stripping slice yield the empty
string, and the handler proceeds and saves an empty note instead of
rejecting the input — confirmed on src/bot.py's note_handler. -/
theorem C10_bare_note_proceeds_empty (uid : Int) (now : Nat) (msgText : String)
    (st : Session) (h : msgText.length < 6) :
    pySlice msgText 6 = "" ∧
    bot_note_handler uid now msgText st
      = ("Note saved!", { st with
                            notes := st.notes ++ [⟨st.nextId, uid, "", now⟩],
                            nextId := st.nextId + 1 }) := by
  have hd : msgText.data.drop 6 = [] := List.drop_eq_nil_of_le (Nat.le_of_lt h)
  have hs : pySlice msgText 6 = "" := by
    unfold pySlice
    rw [hd]
  exact ⟨hs, by simp [bot_note_handler, hs]⟩

/-- Claim C10 witness: the bare-command theorem applied to the message
"/note". -/
theorem C10_witness :
    "/note".length < 6 ∧
    bot_note_handler 7 5 "/note" emptySession
      = ("Note saved!",
         { emptySession with
             notes := emptySession.notes ++ [⟨emptySession.nextId, 7, "", 5⟩],
             nextId := emptySession.nextId + 1 }) :=
  ⟨by decide, (C10_bare_note_proceeds_empty 7 5 "/note" emptySession (by decide)).2⟩
